import Mathlib

/-!
# Render Context (`sdl::twindow`) and Texture Handle (`sdl::ttexture`)

A shallow embedding of `src/sdl/window.cpp` and of the reference counting
declared in `src/sdl/texture.hpp`.

The program state is passed explicitly.  It holds the static pointer
`twindow::instance_` and the native windows that are alive inside the
driver.  A function that can throw returns `Except texception α` together
with the state reached at the point of return or throw.  In C++ the
destructor of an object is not run when its constructor leaves by an
exception, so the state returned with a thrown constructor is the state at
the `throw`.

The native driver is not part of the sources.  Its primitives are embedded
as follows: a primitive that is asked to do something does it unless it
reports a failure.  Whether `SDL_CreateWindow`, `SDL_CreateRenderer`,
`SDL_GetRendererInfo`, `SDL_RenderSetLogicalSize`, `SDL_RenderClear` and
`SDL_SetWindowFullscreen` report one is decided by a `Driver` record that every
operation takes as a parameter; on a null or dead handle they always do.
`SDL_SetRenderDrawColor` only checks its renderer and stores the colour, so it
fails on a null renderer and nowhere else.  The primitives that return `void`
have nothing to report.

`sdl/window.hpp` and `sdl/texture.cpp` are not among the sources; what is
taken from the spec instead is marked as such.
-/

namespace sdl

/-! ## Native driver -/

/-- The exception thrown by the wrapper, `texception(message, sdl)`. -/
structure texception where
  message : String
  sdl : Bool
deriving DecidableEq, Repr

/-- State of a native renderer: logical size, current draw colour, the colour
the target was last cleared with and the number of presented frames. -/
structure SDL_Renderer where
  logical_w : Int
  logical_h : Int
  r : Nat
  g : Nat
  b : Nat
  a : Nat
  cleared : Option (Nat × Nat × Nat × Nat)
  presented : Nat
deriving DecidableEq, Repr

/-- State of a native window.  The renderer created for a window is stored
with the window, which is where `SDL_GetRenderer` finds it. -/
structure SDL_Window where
  title : String
  x : Int
  y : Int
  w : Int
  h : Int
  flags : Nat
  fullscreen : Nat
  renderer : Option SDL_Renderer
deriving DecidableEq, Repr

/-- The part of `SDL_RendererInfo` the wrapper reads. -/
structure SDL_RendererInfo where
  num_texture_formats : Nat
  texture_formats : Fin 16 → Nat

/-- What the native driver answers during one operation of the wrapper.
`create_window` tells whether `SDL_CreateWindow` succeeds, `create_renderer`
is the renderer `SDL_CreateRenderer` hands out (`none` for a null pointer),
the integer fields are the return codes of the primitives of the same name,
and `drawable_size w h` is the drawable size in pixels of a window of size
`w` by `h`. -/
structure Driver where
  create_window : Bool
  create_renderer : Option SDL_Renderer
  get_renderer_info : Int
  info : SDL_RendererInfo
  drawable_size : Int → Int → Int × Int
  render_set_logical_size : Int
  render_clear : Int
  set_window_fullscreen : Int

/-- The program state: the static `twindow::instance_` (the address of the
registered object, `none` for `NULL`), the native windows alive in the driver
keyed by their handle, and the next handle the driver hands out. -/
structure Program where
  instance_ : Option Nat
  windows : List (Nat × SDL_Window)
  next_window : Nat
deriving DecidableEq, Repr

def SDL_PIXELFORMAT_UNKNOWN : Nat := 0

def SDL_WINDOW_FULLSCREEN : Nat := 1

/-- The native window behind a `SDL_Window*`; `none` for a null pointer and
for a handle that is not alive. -/
def find_window (s : Program) (window : Option Nat) : Option SDL_Window :=
  match window with
  | none => none
  | some p => s.windows.lookup p

/-- Apply `f` to the native window with handle `p`. -/
def modify_window (p : Nat) (f : SDL_Window → SDL_Window) (s : Program) : Program :=
  { s with windows := s.windows.map (fun e => if e.1 = p then (e.1, f e.2) else e) }

/-- Apply `f` to the renderer of the native window with handle `p`. -/
def modify_renderer (p : Nat) (f : SDL_Renderer → SDL_Renderer) (s : Program) : Program :=
  modify_window p (fun wnd => { wnd with renderer := wnd.renderer.map f }) s

/-- The renderer state behind a `SDL_Renderer*`.  A renderer pointer is
represented by the handle of the window it belongs to. -/
def find_renderer (s : Program) (renderer : Option Nat) : Option SDL_Renderer :=
  (find_window s renderer).bind (fun wnd => wnd.renderer)

/-- `SDL_CreateWindow`: a new window with the requested title, position, size
and flags, or a null pointer. -/
def SDL_CreateWindow (d : Driver) (title : String) (x y w h : Int) (flags : Nat)
    (s : Program) : Option Nat × Program :=
  if d.create_window then
    (some s.next_window,
      { s with
        windows := (s.next_window, ⟨title, x, y, w, h, flags, 0, none⟩) :: s.windows
        next_window := s.next_window + 1 })
  else (none, s)

/-- `SDL_CreateRenderer`: attaches a renderer to the window and returns it,
or returns a null pointer. -/
def SDL_CreateRenderer (d : Driver) (window : Option Nat) (_index : Int) (_flags : Nat)
    (s : Program) : Option Nat × Program :=
  match window with
  | none => (none, s)
  | some p =>
    match s.windows.lookup p, d.create_renderer with
    | some _, some rn => (some p, modify_window p (fun wnd => { wnd with renderer := some rn }) s)
    | _, _ => (none, s)

/-- `SDL_GetRenderer`: the renderer of a window, null if there is none. -/
def SDL_GetRenderer (s : Program) (window : Option Nat) : Option Nat :=
  match find_renderer s window with
  | some _ => window
  | none => none

/-- `SDL_GetRendererInfo`: return code and the information written to the
out-parameter. -/
def SDL_GetRendererInfo (d : Driver) (s : Program) (renderer : Option Nat) :
    Int × SDL_RendererInfo :=
  match find_renderer s renderer with
  | some _ => (d.get_renderer_info, d.info)
  | none => (-1, d.info)

/-- `SDL_GL_GetDrawableSize`: writes the drawable size of the window to the
out-parameters, which keep their values `w0`, `h0` when the window is not
valid. -/
def SDL_GL_GetDrawableSize (d : Driver) (s : Program) (window : Option Nat) (w0 h0 : Int) :
    Int × Int :=
  match find_window s window with
  | some wnd => d.drawable_size wnd.w wnd.h
  | none => (w0, h0)

/-- `SDL_RenderSetLogicalSize`. -/
def SDL_RenderSetLogicalSize (d : Driver) (renderer : Option Nat) (w h : Int) (s : Program) :
    Int × Program :=
  match renderer, find_renderer s renderer with
  | some p, some _ =>
    if d.render_set_logical_size = 0 then
      (0, modify_renderer p (fun rn => { rn with logical_w := w, logical_h := h }) s)
    else (d.render_set_logical_size, s)
  | _, _ => (-1, s)

/-- `SDL_SetRenderDrawColor`: checks the renderer and stores the colour. -/
def SDL_SetRenderDrawColor (renderer : Option Nat) (r g b a : Nat) (s : Program) :
    Int × Program :=
  match renderer, find_renderer s renderer with
  | some p, some _ =>
    (0, modify_renderer p
      (fun rn => { rn with r := r % 256, g := g % 256, b := b % 256, a := a % 256 }) s)
  | _, _ => (-1, s)

/-- `SDL_RenderClear`: clears the whole target with the current draw colour. -/
def SDL_RenderClear (d : Driver) (renderer : Option Nat) (s : Program) : Int × Program :=
  match renderer, find_renderer s renderer with
  | some p, some _ =>
    if d.render_clear = 0 then
      (0, modify_renderer p (fun rn => { rn with cleared := some (rn.r, rn.g, rn.b, rn.a) }) s)
    else (d.render_clear, s)
  | _, _ => (-1, s)

/-- `SDL_RenderPresent` (returns `void`). -/
def SDL_RenderPresent (renderer : Option Nat) (s : Program) : Program :=
  match renderer with
  | some p => modify_renderer p (fun rn => { rn with presented := rn.presented + 1 }) s
  | none => s

/-- `SDL_DestroyWindow`: the window and the renderer stored with it are gone. -/
def SDL_DestroyWindow (window : Option Nat) (s : Program) : Program :=
  match window with
  | some p => { s with windows := s.windows.filter (fun e => e.1 ≠ p) }
  | none => s

/-- `SDL_SetWindowSize` (returns `void`). -/
def SDL_SetWindowSize (window : Option Nat) (w h : Int) (s : Program) : Program :=
  match window with
  | some p => modify_window p (fun wnd => { wnd with w := w, h := h }) s
  | none => s

/-- `SDL_GetWindowSize`. -/
def SDL_GetWindowSize (s : Program) (window : Option Nat) (w0 h0 : Int) : Int × Int :=
  match find_window s window with
  | some wnd => (wnd.w, wnd.h)
  | none => (w0, h0)

/-- `SDL_SetWindowFullscreen`. -/
def SDL_SetWindowFullscreen (d : Driver) (window : Option Nat) (flags : Nat) (s : Program) :
    Int × Program :=
  match window, find_window s window with
  | some p, some _ =>
    if d.set_window_fullscreen = 0 then
      (0, modify_window p (fun wnd => { wnd with fullscreen := flags }) s)
    else (d.set_window_fullscreen, s)
  | _, _ => (-1, s)

/-! ## `sdl::twindow` (window.cpp) -/

/-- The data members of a `twindow` object. -/
structure twindow where
  window_ : Option Nat
  pixel_format_ : Nat
deriving DecidableEq, Repr

/-- Modelled from the spec: the default value of the fourth parameter of
`twindow::fill`, which is declared in `sdl/window.hpp` (not among the
sources); the spec gives the operation as `fill(r, g, b, a=255)`. -/
def fill_default_a : Nat := 255

/-- `adjust_render_size` (window.cpp:28). -/
def adjust_render_size (d : Driver) (window : Option Nat) (s : Program) :
    Except texception Unit × Program :=
  let draw := SDL_GL_GetDrawableSize d s window 0 0
  let set := SDL_RenderSetLogicalSize d (SDL_GetRenderer s window) draw.1 draw.2 s
  if set.1 ≠ 0 then
    (.error ⟨"Failed to set the logical render size", true⟩, set.2)
  else (.ok (), set.2)

/-- `twindow::instance` (window.cpp:40). -/
def twindow_instance (s : Program) : Option Nat :=
  s.instance_

/-- `twindow::operator SDL_Renderer*` (window.cpp:166). -/
def twindow.to_renderer (self : twindow) (s : Program) : Option Nat :=
  SDL_GetRenderer s self.window_

/-- `twindow::fill` (window.cpp:116).  The result of `SDL_SetRenderDrawColor`
is not looked at. -/
def twindow.fill (d : Driver) (self : twindow) (r g b a : Nat) (s : Program) :
    Except texception Unit × Program :=
  let col := SDL_SetRenderDrawColor (self.to_renderer s) r g b a s
  let clr := SDL_RenderClear d (self.to_renderer col.2) col.2
  if clr.1 ≠ 0 then
    (.error ⟨"Failed to clear the SDL_Renderer object.", true⟩, clr.2)
  else (.ok (), clr.2)

/-- The constructor `twindow::twindow` (window.cpp:44).  `this` is the address
of the object under construction.  The member `pixel_format_` starts as
`SDL_PIXELFORMAT_UNKNOWN` and is assigned at window.cpp:79; the object exists
only when the constructor returns, so its members are returned then. -/
def twindow.ctor (d : Driver) (this : Nat) (title : String) (x y w h : Int)
    (window_flags render_flags : Nat) (s : Program) : Except texception twindow × Program :=
  if s.instance_.isSome then
    (.error ⟨"Cannot create a second window", false⟩, s)
  else
    let cw := SDL_CreateWindow d title x y w h window_flags s
    if cw.1.isNone then
      (.error ⟨"Failed to create a SDL_Window object.", true⟩, cw.2)
    else
      let s1 : Program := { cw.2 with instance_ := some this }
      let cr := SDL_CreateRenderer d cw.1 (-1) render_flags s1
      if cr.1.isNone then
        (.error ⟨"Failed to create a SDL_Renderer object.", true⟩, cr.2)
      else
        let gi := SDL_GetRendererInfo d cr.2 (SDL_GetRenderer cr.2 cw.1)
        if gi.1 ≠ 0 then
          (.error ⟨"Failed to retrieve the information of the renderer.", true⟩, cr.2)
        else if gi.2.num_texture_formats = 0 then
          (.error ⟨"The renderer has no texture information available.\n", false⟩, cr.2)
        else
          let self : twindow := ⟨cw.1, gi.2.texture_formats 0⟩
          let ar := adjust_render_size d cw.1 cr.2
          match ar.1 with
          | .error e => (.error e, ar.2)
          | .ok _ =>
            let fl := self.fill d 0 0 0 fill_default_a ar.2
            match fl.1 with
            | .error e => (.error e, fl.2)
            | .ok _ => (.ok self, fl.2)

/-- The destructor `twindow::~twindow` (window.cpp:86). -/
def twindow.dtor (self : twindow) (s : Program) : Program :=
  let s1 := if self.window_.isSome then SDL_DestroyWindow self.window_ s else s
  { s1 with instance_ := none }

/-- `twindow::get_drawable_size` (window.cpp:96); `w`, `h` are the values the
out-parameters hold at the call. -/
def twindow.get_drawable_size (d : Driver) (self : twindow) (w h : Int) (s : Program) :
    Int × Int :=
  SDL_GL_GetDrawableSize d s self.window_ w h

/-- `twindow::get_size` (window.cpp:101). -/
def twindow.get_size (self : twindow) (w h : Int) (s : Program) : Int × Int :=
  SDL_GetWindowSize s self.window_ w h

/-- `twindow::set_size` (window.cpp:105). -/
def twindow.set_size (d : Driver) (self : twindow) (w h : Int) (s : Program) :
    Except texception Unit × Program :=
  let s1 := SDL_SetWindowSize self.window_ w h s
  adjust_render_size d self.window_ s1

/-- `twindow::full_screen` (window.cpp:111).  The result of
`SDL_SetWindowFullscreen` is not looked at. -/
def twindow.full_screen (d : Driver) (self : twindow) (s : Program) :
    Except texception Unit × Program :=
  let fs := SDL_SetWindowFullscreen d self.window_ SDL_WINDOW_FULLSCREEN s
  (.ok (), fs.2)

/-- `twindow::render` (window.cpp:125). -/
def twindow.render (self : twindow) (s : Program) : Except texception Unit × Program :=
  (.ok (), SDL_RenderPresent (self.to_renderer s) s)

/-! ## States along the constructor -/

/-- The state right after `instance_ = this` (window.cpp:62): the new window is
alive and the object under construction is registered. -/
def after_window (this : Nat) (title : String) (x y w h : Int) (window_flags : Nat)
    (s : Program) : Program :=
  { instance_ := some this
    windows := (s.next_window, ⟨title, x, y, w, h, window_flags, 0, none⟩) :: s.windows
    next_window := s.next_window + 1 }

/-- The state after `SDL_CreateRenderer` handed out the renderer `rn`. -/
def after_renderer (rn : SDL_Renderer) (this : Nat) (title : String) (x y w h : Int)
    (window_flags : Nat) (s : Program) : Program :=
  modify_window s.next_window (fun wnd => { wnd with renderer := some rn })
    (after_window this title x y w h window_flags s)

/-- The state after `adjust_render_size` returned (window.cpp:81). -/
def after_adjust (d : Driver) (rn : SDL_Renderer) (this : Nat) (title : String)
    (x y w h : Int) (window_flags : Nat) (s : Program) : Program :=
  modify_renderer s.next_window
    (fun rn => { rn with logical_w := (d.drawable_size w h).1,
                         logical_h := (d.drawable_size w h).2 })
    (after_renderer rn this title x y w h window_flags s)

/-- The state after `SDL_SetRenderDrawColor` inside `fill(0,0,0)` (window.cpp:83). -/
def after_color (d : Driver) (rn : SDL_Renderer) (this : Nat) (title : String)
    (x y w h : Int) (window_flags : Nat) (s : Program) : Program :=
  modify_renderer s.next_window
    (fun rn => { rn with r := 0 % 256, g := 0 % 256, b := 0 % 256, a := fill_default_a % 256 })
    (after_adjust d rn this title x y w h window_flags s)

/-- The state in which a constructor that returns leaves the program. -/
def after_clear (d : Driver) (rn : SDL_Renderer) (this : Nat) (title : String)
    (x y w h : Int) (window_flags : Nat) (s : Program) : Program :=
  modify_renderer s.next_window
    (fun rn => { rn with cleared := some (rn.r, rn.g, rn.b, rn.a) })
    (after_color d rn this title x y w h window_flags s)

/-- The constructor written out along the answers of the driver. -/
def ctor_by_cases (d : Driver) (this : Nat) (title : String) (x y w h : Int)
    (window_flags : Nat) (s : Program) : Except texception twindow × Program :=
  if s.instance_.isSome then
    (.error ⟨"Cannot create a second window", false⟩, s)
  else if d.create_window = false then
    (.error ⟨"Failed to create a SDL_Window object.", true⟩, s)
  else
    match d.create_renderer with
    | none =>
      (.error ⟨"Failed to create a SDL_Renderer object.", true⟩,
        after_window this title x y w h window_flags s)
    | some rn =>
      if d.get_renderer_info ≠ 0 then
        (.error ⟨"Failed to retrieve the information of the renderer.", true⟩,
          after_renderer rn this title x y w h window_flags s)
      else if d.info.num_texture_formats = 0 then
        (.error ⟨"The renderer has no texture information available.\n", false⟩,
          after_renderer rn this title x y w h window_flags s)
      else if d.render_set_logical_size ≠ 0 then
        (.error ⟨"Failed to set the logical render size", true⟩,
          after_renderer rn this title x y w h window_flags s)
      else if d.render_clear ≠ 0 then
        (.error ⟨"Failed to clear the SDL_Renderer object.", true⟩,
          after_color d rn this title x y w h window_flags s)
      else
        (.ok ⟨some s.next_window, d.info.texture_formats 0⟩,
          after_clear d rn this title x y w h window_flags s)

/-! ## Reference counting of `sdl::ttexture` (texture.hpp)

`sdl/texture.cpp`, which defines the constructors, the destructor and
`operator=` declared in texture.hpp:103-109, is not among the sources.  The
definitions of this section follow the spec (3. Data model, 4.1 Texture
Handle). -/

/-- A renderer as the driver hands it out: no logical size, white draw colour,
never cleared. -/
def fresh_renderer : SDL_Renderer := ⟨0, 0, 255, 255, 255, 255, none, 0⟩

/-- A driver on a display scaled by two on which every primitive succeeds; the
renderer reports one texture format (`SDL_PIXELFORMAT_ARGB8888`). -/
def hidpi_driver : Driver :=
  { create_window := true
    create_renderer := some fresh_renderer
    get_renderer_info := 0
    info := ⟨1, fun _ => 372645892⟩
    drawable_size := fun w h => (2 * w, 2 * h)
    render_set_logical_size := 0
    render_clear := 0
    set_window_fullscreen := 0 }

/-- As `hidpi_driver`, but `SDL_CreateRenderer` returns a null pointer. -/
def no_renderer_driver : Driver := { hidpi_driver with create_renderer := none }

/-- As `hidpi_driver`, but the renderer reports no texture format. -/
def no_formats_driver : Driver := { hidpi_driver with info := ⟨0, fun _ => 0⟩ }

/-- As `hidpi_driver`, but `SDL_RenderSetLogicalSize` returns -1. -/
def logical_size_failure_driver : Driver :=
  { hidpi_driver with render_set_logical_size := -1 }

/-- As `hidpi_driver`, but `SDL_SetWindowFullscreen` returns -1. -/
def fullscreen_failure_driver : Driver := { hidpi_driver with set_window_fullscreen := -1 }

/-- The program before any Render Context exists. -/
def no_program : Program := ⟨none, [], 0⟩

/-- The object made by `twindow(title, 0, 0, 800, 600, 0, 0)` at address 1. -/
def live_window : twindow := ⟨some 0, 372645892⟩

/-- The program after that construction. -/
def live_program : Program :=
  ⟨some 1,
    [(0, ⟨"wesnoth", 0, 0, 800, 600, 0, 0,
      some ⟨1600, 1200, 0, 0, 0, 255, some (0, 0, 0, 255), 0⟩⟩)], 1⟩

/-- The program after `set_size(1024, 768)` on `live_window`. -/
def resized_program : Program :=
  ⟨some 1,
    [(0, ⟨"wesnoth", 0, 0, 1024, 768, 0, 0,
      some ⟨2048, 1536, 0, 0, 0, 255, some (0, 0, 0, 255), 0⟩⟩)], 1⟩

/-! ## Facts about the native state -/

theorem lookup_map_modify (p q : Nat) (f : SDL_Window → SDL_Window)
    (ws : List (Nat × SDL_Window)) :
    (ws.map (fun e => if e.1 = p then (e.1, f e.2) else e)).lookup q
      = if q = p then (ws.lookup q).map f else ws.lookup q := by
  induction ws with
  | nil => simp
  | cons e ws ih =>
    obtain ⟨k, wnd⟩ := e
    rw [List.map_cons]
    by_cases hk : k = p
    · rw [if_pos hk, List.lookup_cons, List.lookup_cons, ih]
      by_cases hq : q = k
      · have : q = p := hq.trans hk
        simp [hq, hk]
      · have hq2 : (q == k) = false := by simpa using hq
        simp [hq2]
    · rw [if_neg hk, List.lookup_cons, List.lookup_cons, ih]
      by_cases hq : q = k
      · have : ¬ q = p := fun h => hk (hq ▸ h)
        simp [hq, hk]
      · have hq2 : (q == k) = false := by simpa using hq
        simp [hq2]

theorem find_window_modify_window (p : Nat) (f : SDL_Window → SDL_Window) (s : Program)
    (q : Nat) :
    find_window (modify_window p f s) (some q)
      = if q = p then (find_window s (some q)).map f else find_window s (some q) := by
  simp [find_window, modify_window, lookup_map_modify]

theorem lookup_filter_ne (p : Nat) (ws : List (Nat × SDL_Window)) :
    (ws.filter (fun e => e.1 ≠ p)).lookup p = none := by
  induction ws with
  | nil => simp
  | cons e ws ih =>
    obtain ⟨k, wnd⟩ := e
    by_cases hk : k = p
    · rw [List.filter_cons_of_neg (by simp [hk])]
      exact ih
    · rw [List.filter_cons_of_pos (by simp [hk]), List.lookup_cons]
      have hq2 : (p == k) = false := by simpa using (Ne.symm hk)
      rw [hq2]
      exact ih

@[simp] theorem modify_window_instance (p : Nat) (f : SDL_Window → SDL_Window) (s : Program) :
    (modify_window p f s).instance_ = s.instance_ := rfl

@[simp] theorem modify_renderer_instance (p : Nat) (f : SDL_Renderer → SDL_Renderer)
    (s : Program) : (modify_renderer p f s).instance_ = s.instance_ := rfl

theorem find_window_modify_self (p : Nat) (f : SDL_Window → SDL_Window) (s : Program) :
    find_window (modify_window p f s) (some p) = (find_window s (some p)).map f := by
  rw [find_window_modify_window, if_pos rfl]

theorem find_window_modify_renderer (p : Nat) (f : SDL_Renderer → SDL_Renderer) (s : Program)
    (wnd : SDL_Window) (hw : find_window s (some p) = some wnd) :
    find_window (modify_renderer p f s) (some p)
      = some { wnd with renderer := wnd.renderer.map f } := by
  unfold modify_renderer
  rw [find_window_modify_self, hw]
  rfl

theorem find_renderer_live (s : Program) (p : Nat) (wnd : SDL_Window) (rn : SDL_Renderer)
    (hw : find_window s (some p) = some wnd) (hr : wnd.renderer = some rn) :
    find_renderer s (some p) = some rn := by
  simp [find_renderer, hw, hr]

theorem SDL_GetRenderer_live (s : Program) (p : Nat) (rn : SDL_Renderer)
    (hr : find_renderer s (some p) = some rn) : SDL_GetRenderer s (some p) = some p := by
  simp [SDL_GetRenderer, hr]

theorem SDL_GetRenderer_dead (s : Program) (window : Option Nat)
    (hr : find_renderer s window = none) : SDL_GetRenderer s window = none := by
  simp [SDL_GetRenderer, hr]

theorem find_renderer_none (s : Program) : find_renderer s none = none := rfl

/-- `adjust_render_size` on a window that has a renderer. -/
theorem adjust_render_size_live (d : Driver) (s : Program) (p : Nat) (wnd : SDL_Window)
    (rn : SDL_Renderer) (hw : find_window s (some p) = some wnd)
    (hr : wnd.renderer = some rn) :
    adjust_render_size d (some p) s
      = if d.render_set_logical_size = 0 then
          (.ok (), modify_renderer p
            (fun rn => { rn with logical_w := (d.drawable_size wnd.w wnd.h).1,
                                 logical_h := (d.drawable_size wnd.w wnd.h).2 }) s)
        else (.error ⟨"Failed to set the logical render size", true⟩, s) := by
  have hfr := find_renderer_live s p wnd rn hw hr
  simp only [adjust_render_size, SDL_GL_GetDrawableSize, hw, SDL_GetRenderer_live s p rn hfr,
    SDL_RenderSetLogicalSize, hfr]
  by_cases hc : d.render_set_logical_size = 0
  · simp [hc]
  · simp [hc]

/-- `adjust_render_size` on a window without renderer, or on no window. -/
theorem adjust_render_size_dead (d : Driver) (s : Program) (window : Option Nat)
    (hr : find_renderer s window = none) :
    adjust_render_size d window s
      = (.error ⟨"Failed to set the logical render size", true⟩, s) := by
  simp [adjust_render_size, SDL_GetRenderer_dead s window hr, SDL_RenderSetLogicalSize]

/-- `fill` on a window that has a renderer. -/
theorem fill_live (d : Driver) (s : Program) (self : twindow) (p : Nat) (wnd : SDL_Window)
    (rn : SDL_Renderer) (r g b a : Nat) (hp : self.window_ = some p)
    (hw : find_window s (some p) = some wnd) (hr : wnd.renderer = some rn) :
    self.fill d r g b a s
      = if d.render_clear = 0 then
          (.ok (), modify_renderer p
            (fun rn => { rn with cleared := some (rn.r, rn.g, rn.b, rn.a) })
            (modify_renderer p
              (fun rn => { rn with r := r % 256, g := g % 256, b := b % 256, a := a % 256 }) s))
        else
          (.error ⟨"Failed to clear the SDL_Renderer object.", true⟩,
            modify_renderer p
              (fun rn => { rn with r := r % 256, g := g % 256, b := b % 256, a := a % 256 }) s) := by
  have hfr := find_renderer_live s p wnd rn hw hr
  have hw2 := find_window_modify_renderer p
    (fun rn => { rn with r := r % 256, g := g % 256, b := b % 256, a := a % 256 }) s wnd hw
  have hfr2 := find_renderer_live _ p _
    { rn with r := r % 256, g := g % 256, b := b % 256, a := a % 256 } hw2 (by simp [hr])
  simp only [twindow.fill, twindow.to_renderer, hp, SDL_GetRenderer_live s p rn hfr,
    SDL_SetRenderDrawColor, hfr, SDL_GetRenderer_live _ p _ hfr2, SDL_RenderClear, hfr2]
  by_cases hc : d.render_clear = 0
  · simp [hc]
  · simp [hc]

/-- `fill` on a window without renderer, or on no window. -/
theorem fill_dead (d : Driver) (s : Program) (self : twindow) (r g b a : Nat)
    (hr : find_renderer s self.window_ = none) :
    self.fill d r g b a s
      = (.error ⟨"Failed to clear the SDL_Renderer object.", true⟩, s) := by
  simp [twindow.fill, twindow.to_renderer, SDL_GetRenderer_dead s _ hr, SDL_SetRenderDrawColor,
    SDL_RenderClear]

theorem find_window_after_window (this : Nat) (title : String) (x y w h : Int)
    (window_flags : Nat) (s : Program) :
    find_window (after_window this title x y w h window_flags s) (some s.next_window)
      = some ⟨title, x, y, w, h, window_flags, 0, none⟩ := by
  simp [find_window, after_window, List.lookup_cons]

theorem find_window_after_renderer (rn : SDL_Renderer) (this : Nat) (title : String)
    (x y w h : Int) (window_flags : Nat) (s : Program) :
    find_window (after_renderer rn this title x y w h window_flags s) (some s.next_window)
      = some ⟨title, x, y, w, h, window_flags, 0, some rn⟩ := by
  unfold after_renderer
  rw [find_window_modify_self, find_window_after_window]
  rfl

theorem find_window_after_adjust (d : Driver) (rn : SDL_Renderer) (this : Nat)
    (title : String) (x y w h : Int) (window_flags : Nat) (s : Program) :
    find_window (after_adjust d rn this title x y w h window_flags s) (some s.next_window)
      = some ⟨title, x, y, w, h, window_flags, 0,
          some { rn with logical_w := (d.drawable_size w h).1,
                         logical_h := (d.drawable_size w h).2 }⟩ := by
  unfold after_adjust
  rw [find_window_modify_renderer _ _ _ _ (find_window_after_renderer ..)]
  rfl

theorem find_window_after_clear (d : Driver) (rn : SDL_Renderer) (this : Nat)
    (title : String) (x y w h : Int) (window_flags : Nat) (s : Program) :
    find_window (after_clear d rn this title x y w h window_flags s) (some s.next_window)
      = some ⟨title, x, y, w, h, window_flags, 0,
          some { rn with logical_w := (d.drawable_size w h).1,
                         logical_h := (d.drawable_size w h).2,
                         r := 0, g := 0, b := 0, a := 255,
                         cleared := some (0, 0, 0, 255) }⟩ := by
  unfold after_clear after_color
  rw [find_window_modify_renderer _ _ _ _
    (find_window_modify_renderer _ _ _ _ (find_window_after_adjust ..))]
  rfl

theorem after_clear_instance (d : Driver) (rn : SDL_Renderer) (this : Nat)
    (title : String) (x y w h : Int) (window_flags : Nat) (s : Program) :
    (after_clear d rn this title x y w h window_flags s).instance_ = some this := rfl

/-- The constructor computes what `ctor_by_cases` spells out. -/
theorem ctor_eq (d : Driver) (this : Nat) (title : String) (x y w h : Int)
    (window_flags render_flags : Nat) (s : Program) :
    twindow.ctor d this title x y w h window_flags render_flags s
      = ctor_by_cases d this title x y w h window_flags s := by
  unfold twindow.ctor ctor_by_cases
  by_cases h0 : s.instance_.isSome
  · simp [h0]
  rw [if_neg h0, if_neg h0]
  by_cases hw : d.create_window = true
  swap
  · simp [SDL_CreateWindow, hw]
  have hcw : SDL_CreateWindow d title x y w h window_flags s
      = (some s.next_window,
          { s with
            windows := (s.next_window, ⟨title, x, y, w, h, window_flags, 0, none⟩) :: s.windows
            next_window := s.next_window + 1 }) := by
    simp [SDL_CreateWindow, hw]
  rw [hcw, if_neg (show ¬ d.create_window = false by simp [hw])]
  simp only [Option.isNone_some, Bool.false_eq_true, if_false]
  have hfold : ({ instance_ := some this
                  windows := (s.next_window, ⟨title, x, y, w, h, window_flags, 0, none⟩)
                    :: s.windows
                  next_window := s.next_window + 1 } : Program)
      = after_window this title x y w h window_flags s := rfl
  rw [hfold]
  have hA := find_window_after_window this title x y w h window_flags s
  have hA2 : List.lookup s.next_window (after_window this title x y w h window_flags s).windows
      = some ⟨title, x, y, w, h, window_flags, 0, none⟩ := hA
  cases hcr : d.create_renderer with
  | none =>
    have hR : SDL_CreateRenderer d (some s.next_window) (-1) render_flags
        (after_window this title x y w h window_flags s)
        = (none, after_window this title x y w h window_flags s) := by
      simp [SDL_CreateRenderer, hcr, hA2]
    rw [hR]
    rfl
  | some rn =>
    have hR : SDL_CreateRenderer d (some s.next_window) (-1) render_flags
        (after_window this title x y w h window_flags s)
        = (some s.next_window, after_renderer rn this title x y w h window_flags s) := by
      simp [SDL_CreateRenderer, hcr, hA2, after_renderer]
    rw [hR]
    simp only [Option.isNone_some, Bool.false_eq_true, if_false]
    have hB := find_window_after_renderer rn this title x y w h window_flags s
    have hfr := find_renderer_live _ _ _ rn hB rfl
    rw [SDL_GetRenderer_live _ _ rn hfr]
    have hgi : SDL_GetRendererInfo d (after_renderer rn this title x y w h window_flags s)
        (some s.next_window) = (d.get_renderer_info, d.info) := by
      simp [SDL_GetRendererInfo, hfr]
    rw [hgi]
    by_cases h1 : d.get_renderer_info = 0
    swap
    · simp [h1]
    by_cases h2 : d.info.num_texture_formats = 0
    · simp [h1, h2]
    simp only [h1, h2, ne_eq, not_true_eq_false, if_false]
    rw [adjust_render_size_live d _ _ _ rn hB rfl]
    by_cases h3 : d.render_set_logical_size = 0
    swap
    · simp [h3]
    simp only [h3, if_true, not_true_eq_false, if_false]
    have hC := find_window_after_adjust d rn this title x y w h window_flags s
    have hfold2 : modify_renderer s.next_window
        (fun rn => { rn with logical_w := (d.drawable_size w h).1,
                             logical_h := (d.drawable_size w h).2 })
        (after_renderer rn this title x y w h window_flags s)
        = after_adjust d rn this title x y w h window_flags s := rfl
    rw [hfold2]
    rw [fill_live d _ ⟨some s.next_window, d.info.texture_formats 0⟩ s.next_window _ _ 0 0 0
      fill_default_a rfl hC rfl]
    by_cases h4 : d.render_clear = 0
    · simp only [h4, if_true, not_true_eq_false, if_false]
      rfl
    · simp only [h4, if_false, not_false_eq_true, if_true]
      rfl

/-! ## Facts about the reference count -/

/-- Claim C1: when an instance is registered, constructing a Render Context
with any arguments throws, leaves the whole state as it was, and `instance()`
still returns the first instance. -/
theorem second_construction_rejected (d : Driver) (this : Nat) (title : String)
    (x y w h : Int) (window_flags render_flags : Nat) (s : Program) (first : Nat)
    (hfirst : twindow_instance s = some first) :
    (twindow.ctor d this title x y w h window_flags render_flags s).1
        = .error ⟨"Cannot create a second window", false⟩
      ∧ (twindow.ctor d this title x y w h window_flags render_flags s).2 = s
      ∧ twindow_instance (twindow.ctor d this title x y w h window_flags render_flags s).2
        = some first := by
  have hs : s.instance_ = some first := hfirst
  simp [twindow.ctor, hs, twindow_instance]

/-- A constructor that returns went through every check, and the state it
leaves is `after_clear`. -/
theorem ctor_ok_inv (d : Driver) (this : Nat) (title : String) (x y w h : Int)
    (window_flags render_flags : Nat) (s : Program) (self : twindow) (s1 : Program)
    (hok : twindow.ctor d this title x y w h window_flags render_flags s = (.ok self, s1)) :
    ∃ rn, s.instance_ = none ∧ d.create_window = true ∧ d.create_renderer = some rn
      ∧ d.get_renderer_info = 0 ∧ d.info.num_texture_formats ≠ 0
      ∧ d.render_set_logical_size = 0 ∧ d.render_clear = 0
      ∧ self = ⟨some s.next_window, d.info.texture_formats 0⟩
      ∧ s1 = after_clear d rn this title x y w h window_flags s := by
  rw [ctor_eq] at hok
  unfold ctor_by_cases at hok
  by_cases h0 : s.instance_.isSome
  · simp [h0] at hok
  rw [if_neg h0] at hok
  by_cases hw : d.create_window = false
  · simp [hw] at hok
  rw [if_neg hw] at hok
  cases hcr : d.create_renderer with
  | none => simp [hcr] at hok
  | some rn =>
    simp only [hcr] at hok
    by_cases h1 : d.get_renderer_info = 0
    swap
    · simp [h1] at hok
    by_cases h2 : d.info.num_texture_formats = 0
    · simp [h1, h2] at hok
    by_cases h3 : d.render_set_logical_size = 0
    swap
    · simp [h1, h2, h3] at hok
    by_cases h4 : d.render_clear = 0
    swap
    · simp [h1, h2, h3, h4] at hok
    simp only [h1, h2, h3, h4, ne_eq, not_true_eq_false, if_false, Prod.mk.injEq,
      Except.ok.injEq] at hok
    refine ⟨rn, ?_, ?_, rfl, h1, h2, h3, h4, hok.1.symm, hok.2.symm⟩
    · simpa using h0
    · simpa using hw

/-- Claim C4: the constructor throws in each of the five listed conditions: an
instance is already registered, window creation gives a null pointer, renderer
creation gives a null pointer, the renderer information query returns
non-zero, the renderer reports no texture format. -/
theorem construction_fails_on_each_condition (d : Driver) (this : Nat) (title : String)
    (x y w h : Int) (window_flags render_flags : Nat) (s : Program)
    (hcond : twindow_instance s ≠ none ∨ d.create_window = false ∨ d.create_renderer = none
      ∨ d.get_renderer_info ≠ 0 ∨ d.info.num_texture_formats = 0) :
    ∃ e, (twindow.ctor d this title x y w h window_flags render_flags s).1 = .error e := by
  cases hres : twindow.ctor d this title x y w h window_flags render_flags s with
  | mk res s1 =>
    cases res with
    | error e => exact ⟨e, rfl⟩
    | ok self =>
      obtain ⟨rn, hi, hw, hcr, h1, h2, -, -, -, -⟩ :=
        ctor_ok_inv d this title x y w h window_flags render_flags s self s1 hres
      exfalso
      rcases hcond with hc | hc | hc | hc | hc
      · exact hc hi
      · simp [hw] at hc
      · simp [hcr] at hc
      · exact hc h1
      · exact h2 hc

/-- Claim C5: after a constructor that returns, the cached pixel format is the
first texture format the renderer reported, the logical size of the renderer
is the drawable size the driver reports for the new window, the target has been
cleared with draw colour (0,0,0,255), and `instance()` returns the new object. -/
theorem construction_success_postcondition (d : Driver) (this : Nat) (title : String)
    (x y w h : Int) (window_flags render_flags : Nat) (s : Program) (self : twindow)
    (s1 : Program)
    (hok : twindow.ctor d this title x y w h window_flags render_flags s = (.ok self, s1)) :
    self.pixel_format_ = d.info.texture_formats 0
      ∧ twindow_instance s1 = some this
      ∧ ∃ wnd rn, find_window s1 self.window_ = some wnd
          ∧ wnd.w = w ∧ wnd.h = h
          ∧ find_renderer s1 (self.to_renderer s1) = some rn
          ∧ (rn.logical_w, rn.logical_h) = d.drawable_size w h
          ∧ rn.cleared = some (0, 0, 0, 255) := by
  obtain ⟨rn, -, -, -, -, -, -, -, hself, hs1⟩ :=
    ctor_ok_inv d this title x y w h window_flags render_flags s self s1 hok
  subst hself
  subst hs1
  have hfw := find_window_after_clear d rn this title x y w h window_flags s
  have hfr := find_renderer_live _ _ _ _ hfw rfl
  refine ⟨rfl, rfl, _,
    { rn with logical_w := (d.drawable_size w h).1, logical_h := (d.drawable_size w h).2,
              r := 0, g := 0, b := 0, a := 255, cleared := some (0, 0, 0, 255) },
    hfw, rfl, rfl, ?_, rfl, rfl⟩
  simp only [twindow.to_renderer]
  rw [SDL_GetRenderer_live _ _ _ hfr]
  exact hfr

/-- Claim C6: destroying a Render Context that was constructed releases its
native window and clears the singleton pointer: `instance()` returns none, the
window is no longer alive, and no later construction is rejected because an
instance already exists. -/
theorem destruction_releases_and_unregisters (d : Driver) (this : Nat) (title : String)
    (x y w h : Int) (window_flags render_flags : Nat) (s : Program) (self : twindow)
    (s1 : Program)
    (hok : twindow.ctor d this title x y w h window_flags render_flags s = (.ok self, s1)) :
    (find_window s1 self.window_).isSome = true
      ∧ find_window (self.dtor s1) self.window_ = none
      ∧ twindow_instance (self.dtor s1) = none
      ∧ ∀ (d2 : Driver) (this2 : Nat) (title2 : String) (x2 y2 w2 h2 : Int)
          (window_flags2 render_flags2 : Nat),
          (twindow.ctor d2 this2 title2 x2 y2 w2 h2 window_flags2 render_flags2
              (self.dtor s1)).1
            ≠ .error ⟨"Cannot create a second window", false⟩ := by
  obtain ⟨rn, -, -, -, -, -, -, -, hself, hs1⟩ :=
    ctor_ok_inv d this title x y w h window_flags render_flags s self s1 hok
  subst hself
  subst hs1
  have hfw := find_window_after_clear d rn this title x y w h window_flags s
  refine ⟨by rw [hfw]; rfl, ?_, rfl, ?_⟩
  · simp only [twindow.dtor, Option.isSome_some, if_true, SDL_DestroyWindow, find_window]
    exact lookup_filter_ne _ _
  · intro d2 this2 title2 x2 y2 w2 h2 wf2 rf2
    rw [ctor_eq]
    unfold ctor_by_cases
    have hi : (twindow.dtor ⟨some s.next_window, d.info.texture_formats 0⟩
        (after_clear d rn this title x y w h window_flags s)).instance_ = none := rfl
    rw [hi]
    simp only [Option.isSome_none, Bool.false_eq_true, if_false]
    by_cases hw : d2.create_window = false
    · simp [hw]
    rw [if_neg hw]
    cases hcr : d2.create_renderer with
    | none => simp
    | some rn2 =>
      simp only
      split_ifs <;> simp

/-- Claim C8: when `set_size(w, h)` returns, the native window has size
`(w, h)` and the logical size of its renderer is the drawable size the driver
reports for the window as it is after the resize. -/
theorem set_size_postcondition (d : Driver) (self : twindow) (w h : Int) (s s1 : Program)
    (hok : self.set_size d w h s = (.ok (), s1)) :
    ∃ wnd rn, find_window s1 self.window_ = some wnd
      ∧ wnd.w = w ∧ wnd.h = h
      ∧ find_renderer s1 (self.to_renderer s1) = some rn
      ∧ (rn.logical_w, rn.logical_h) = d.drawable_size w h
      ∧ ∀ w0 h0 : Int, (rn.logical_w, rn.logical_h) = self.get_drawable_size d w0 h0 s1 := by
  obtain ⟨window_, pf⟩ := self
  cases window_ with
  | none =>
    simp only [twindow.set_size, SDL_SetWindowSize] at hok
    rw [adjust_render_size_dead d s none rfl] at hok
    simp at hok
  | some p =>
    simp only [twindow.set_size, SDL_SetWindowSize] at hok
    have hfw := find_window_modify_self p (fun wnd => { wnd with w := w, h := h }) s
    cases hw0 : find_window s (some p) with
    | none =>
      rw [hw0] at hfw
      rw [adjust_render_size_dead d _ (some p) (by simp [find_renderer, hfw])] at hok
      simp at hok
    | some wnd0 =>
      rw [hw0] at hfw
      cases hr0 : wnd0.renderer with
      | none =>
        rw [adjust_render_size_dead d _ (some p) (by simp [find_renderer, hfw, hr0])] at hok
        simp at hok
      | some rn0 =>
        rw [adjust_render_size_live d _ p _ rn0 hfw hr0] at hok
        by_cases hc : d.render_set_logical_size = 0
        swap
        · simp [hc] at hok
        simp only [hc, if_true, Prod.mk.injEq, true_and] at hok
        have hfw1 := find_window_modify_renderer p
          (fun rn => { rn with logical_w := (d.drawable_size w h).1,
                               logical_h := (d.drawable_size w h).2 }) _ _ hfw
        rw [hok] at hfw1
        simp only [Option.map_some', hr0] at hfw1
        have hfr1 := find_renderer_live s1 p _ _ hfw1 rfl
        refine ⟨_, { rn0 with logical_w := (d.drawable_size w h).1,
                              logical_h := (d.drawable_size w h).2 },
          hfw1, rfl, rfl, ?_, rfl, ?_⟩
        · simp only [twindow.to_renderer]
          rw [SDL_GetRenderer_live _ _ _ hfr1]
          exact hfr1
        · intro w0 h0
          simp [twindow.get_drawable_size, SDL_GL_GetDrawableSize, hfw1]

/-- Claim C10: on a Render Context whose native window is alive, when the
driver reports a failure of `SDL_RenderSetLogicalSize` during `set_size(w, h)`,
`set_size` throws and the native window nevertheless has size `(w, h)`. -/
theorem set_size_failure_keeps_resize (d : Driver) (self : twindow) (w h : Int) (s : Program)
    (hlive : (find_window s self.window_).isSome = true)
    (hfail : d.render_set_logical_size ≠ 0) :
    (self.set_size d w h s).1 = .error ⟨"Failed to set the logical render size", true⟩
      ∧ ∃ wnd, find_window (self.set_size d w h s).2 self.window_ = some wnd
          ∧ wnd.w = w ∧ wnd.h = h := by
  obtain ⟨window_, pf⟩ := self
  cases window_ with
  | none => simp [find_window] at hlive
  | some p =>
    cases hw0 : find_window s (some p) with
    | none => simp [hw0] at hlive
    | some wnd0 =>
      have hfw := find_window_modify_self p (fun wnd => { wnd with w := w, h := h }) s
      rw [hw0] at hfw
      simp only [twindow.set_size, SDL_SetWindowSize]
      cases hr0 : wnd0.renderer with
      | none =>
        rw [adjust_render_size_dead d _ (some p) (by simp [find_renderer, hfw, hr0])]
        exact ⟨rfl, _, hfw, rfl, rfl⟩
      | some rn0 =>
        rw [adjust_render_size_live d _ p _ rn0 hfw hr0, if_neg hfail]
        exact ⟨rfl, _, hfw, rfl, rfl⟩

/-- Witness for claim C1: a second construction on `live_program`. -/
theorem second_construction_rejected_witness :
    twindow_instance live_program = some 1
      ∧ ((twindow.ctor hidpi_driver 2 "second" 10 10 640 480 0 0 live_program).1
          = .error ⟨"Cannot create a second window", false⟩
        ∧ (twindow.ctor hidpi_driver 2 "second" 10 10 640 480 0 0 live_program).2
          = live_program
        ∧ twindow_instance
            (twindow.ctor hidpi_driver 2 "second" 10 10 640 480 0 0 live_program).2
          = some 1) :=
  ⟨rfl, second_construction_rejected hidpi_driver 2 "second" 10 10 640 480 0 0 live_program 1
    rfl⟩

/-- Claim C2, evaluated where it fails: no instance is registered, renderer
creation fails, the constructor throws, and `instance()` then returns the
address of the object whose construction failed. -/
theorem failed_construction_registers_instance :
    twindow_instance no_program = none
      ∧ (twindow.ctor no_renderer_driver 1 "wesnoth" 0 0 800 600 0 0 no_program).1
          = .error ⟨"Failed to create a SDL_Renderer object.", true⟩
      ∧ twindow_instance
          (twindow.ctor no_renderer_driver 1 "wesnoth" 0 0 800 600 0 0 no_program).2
          = some 1 :=
  ⟨rfl, rfl, rfl⟩

/-- Claim C3, evaluated where it fails: no native window is alive, the renderer
reports no texture format, the constructor throws, and the window it created
is still alive with its renderer. -/
theorem failed_construction_leaves_window :
    no_program.windows = []
      ∧ (twindow.ctor no_formats_driver 1 "wesnoth" 0 0 800 600 0 0 no_program).1
          = .error ⟨"The renderer has no texture information available.\n", false⟩
      ∧ (twindow.ctor no_formats_driver 1 "wesnoth" 0 0 800 600 0 0 no_program).2.windows
          = [(0, ⟨"wesnoth", 0, 0, 800, 600, 0, 0, some fresh_renderer⟩)] :=
  ⟨rfl, rfl, rfl⟩

/-- Witness for claim C4: the renderer reports no texture format. -/
theorem construction_fails_on_each_condition_witness :
    (twindow_instance no_program ≠ none ∨ no_formats_driver.create_window = false
        ∨ no_formats_driver.create_renderer = none ∨ no_formats_driver.get_renderer_info ≠ 0
        ∨ no_formats_driver.info.num_texture_formats = 0)
      ∧ ∃ e, (twindow.ctor no_formats_driver 1 "wesnoth" 0 0 800 600 0 0 no_program).1
          = .error e :=
  ⟨Or.inr (Or.inr (Or.inr (Or.inr rfl))),
    construction_fails_on_each_condition no_formats_driver 1 "wesnoth" 0 0 800 600 0 0
      no_program (Or.inr (Or.inr (Or.inr (Or.inr rfl))))⟩

/-- Witness for claim C5: an 800 by 600 window on a display scaled by two. -/
theorem construction_success_postcondition_witness :
    twindow.ctor hidpi_driver 1 "wesnoth" 0 0 800 600 0 0 no_program
        = (.ok live_window, live_program)
      ∧ (live_window.pixel_format_ = hidpi_driver.info.texture_formats 0
        ∧ twindow_instance live_program = some 1
        ∧ ∃ wnd rn, find_window live_program live_window.window_ = some wnd
            ∧ wnd.w = 800 ∧ wnd.h = 600
            ∧ find_renderer live_program (live_window.to_renderer live_program) = some rn
            ∧ (rn.logical_w, rn.logical_h) = hidpi_driver.drawable_size 800 600
            ∧ rn.cleared = some (0, 0, 0, 255)) :=
  ⟨rfl, construction_success_postcondition hidpi_driver 1 "wesnoth" 0 0 800 600 0 0 no_program
    live_window live_program rfl⟩

/-- Witness for claim C6: construction on `no_program`, then destruction. -/
theorem destruction_releases_and_unregisters_witness :
    twindow.ctor hidpi_driver 1 "wesnoth" 0 0 800 600 0 0 no_program
        = (.ok live_window, live_program)
      ∧ ((find_window live_program live_window.window_).isSome = true
        ∧ find_window (live_window.dtor live_program) live_window.window_ = none
        ∧ twindow_instance (live_window.dtor live_program) = none
        ∧ ∀ (d2 : Driver) (this2 : Nat) (title2 : String) (x2 y2 w2 h2 : Int)
            (window_flags2 render_flags2 : Nat),
            (twindow.ctor d2 this2 title2 x2 y2 w2 h2 window_flags2 render_flags2
                (live_window.dtor live_program)).1
              ≠ .error ⟨"Cannot create a second window", false⟩) :=
  ⟨rfl, destruction_releases_and_unregisters hidpi_driver 1 "wesnoth" 0 0 800 600 0 0
    no_program live_window live_program rfl⟩

/-- Claim C7, evaluated where it fails: `SDL_SetWindowFullscreen` returns -1
and `full_screen` returns normally, the window as it was. -/
theorem full_screen_ignores_failure :
    (SDL_SetWindowFullscreen fullscreen_failure_driver live_window.window_
        SDL_WINDOW_FULLSCREEN live_program).1 = -1
      ∧ live_window.full_screen fullscreen_failure_driver live_program
          = (.ok (), live_program) :=
  ⟨rfl, rfl⟩

/-- Witness for claim C8: `set_size(1024, 768)` on a display scaled by two. -/
theorem set_size_postcondition_witness :
    live_window.set_size hidpi_driver 1024 768 live_program = (.ok (), resized_program)
      ∧ ∃ wnd rn, find_window resized_program live_window.window_ = some wnd
          ∧ wnd.w = 1024 ∧ wnd.h = 768
          ∧ find_renderer resized_program (live_window.to_renderer resized_program) = some rn
          ∧ (rn.logical_w, rn.logical_h) = hidpi_driver.drawable_size 1024 768
          ∧ ∀ w0 h0 : Int, (rn.logical_w, rn.logical_h)
              = live_window.get_drawable_size hidpi_driver w0 h0 resized_program :=
  ⟨rfl, set_size_postcondition hidpi_driver live_window 1024 768 live_program resized_program
    rfl⟩

/-- Witness for claim C10: `set_size(1024, 768)` while `SDL_RenderSetLogicalSize`
returns -1. -/
theorem set_size_failure_keeps_resize_witness :
    ((find_window live_program live_window.window_).isSome = true
        ∧ logical_size_failure_driver.render_set_logical_size ≠ 0)
      ∧ ((live_window.set_size logical_size_failure_driver 1024 768 live_program).1
          = .error ⟨"Failed to set the logical render size", true⟩
        ∧ ∃ wnd, find_window
              (live_window.set_size logical_size_failure_driver 1024 768 live_program).2
              live_window.window_ = some wnd
            ∧ wnd.w = 1024 ∧ wnd.h = 768) :=
  ⟨⟨rfl, by decide⟩,
    set_size_failure_keeps_resize logical_size_failure_driver live_window 1024 768
      live_program rfl (by decide)⟩

end sdl
